import Mathlib

/-!
# Verification of the pynger probe engine and ingestion pipeline

Shallow embedding of `src/pynger/pynger.py` and `src/pynger/kafkapg.py`.

Modelling conventions:
* Python `str` values that the code computes on are modelled as `List Char`
  (`pySplit`, `pyStrip`, `pyLower` mirror `str.split`, `str.strip`,
  `str.lower`); strings that are only carried around are Lean `String`s.
* Python `float` durations are modelled as `ℚ` — no claim depends on
  floating-point rounding, only on ordering and zero/non-zero.
* Exceptions are modelled with `Except PyError`; a function whose Python
  counterpart cannot raise is a plain total function.
* External effects (the wall clock, the socket, the HTTP transport, the
  JSON codec of the standard library, `bytes.decode`, `re.search`) are
  passed in as oracle functions; every theorem quantifies over them.
-/

/-- Python exceptions that the embedded code can raise or propagate.
`maxRedirect` models `MaxRedirectError`; `indexError` models `IndexError`
(note: `IndexError` is a `LookupError`, not a `ValueError`); `lookupError`
models the `LookupError` raised by `bytes.decode` on an unknown encoding
name (also not a `ValueError`); `keyError` models `KeyError` from a dict
access such as `response.headers["Location"]`; `osError` models an
`OSError` from `sock.connect` outside the three classes `time_connect`
catches (e.g. `EHOSTUNREACH`); `transportError` models an exception
raised by `http_pool.request` (urllib3 transport/TLS errors, not caught
anywhere in the probe). -/
inductive PyError where
  | maxRedirect (msg : String)
  | indexError
  | lookupError
  | keyError (key : String)
  | osError (msg : String)
  | transportError (msg : String)
deriving DecidableEq, Repr

deriving instance DecidableEq for Except

/-- Python `s.split(sep)` with an explicit one-character separator:
`"a;b;".split(";") == ["a", "b", ""]`, `"".split(";") == [""]`. -/
def pySplit (sep : Char) : List Char → List (List Char)
  | [] => [[]]
  | c :: rest =>
    match pySplit sep rest with
    | [] => [[c]]
    | g :: gs => if c = sep then [] :: g :: gs else (c :: g) :: gs

/-- Python `s.strip()`: drop whitespace from both ends. -/
def pyStrip (s : List Char) : List Char :=
  ((s.dropWhile Char.isWhitespace).reverse.dropWhile Char.isWhitespace).reverse

/-- Python `s.lower()` (the headers involved are ASCII). -/
def pyLower (s : List Char) : List Char :=
  s.map Char.toLower

/-- The loop body of `get_charset`: walk the `;`-components (each already
stripped and split on `=`); on the first component whose key is `charset`,
return `c[1].strip()` — Python evaluates `c[1]` even when the component has
no `=`, which raises `IndexError`. -/
def findCharset : List (List (List Char)) → Except PyError (Option (List Char))
  | [] => .ok none
  | c :: rest =>
    if pyStrip (pyLower (c.headD [])) = String.toList "charset" then
      match c with
      | _ :: v :: _ => .ok (some (pyStrip v))
      | _ => .error .indexError
    else findCharset rest

/-- `get_charset(content_type_str)` from `pynger.py` lines 188–194.
The argument is `Union[str, None]`; `if content_type_str:` skips both
`None` and the empty string (Python falsiness). -/
def get_charset (content_type_str : Option (List Char)) :
    Except PyError (Option (List Char)) :=
  match content_type_str with
  | none => .ok none
  | some s =>
    if s = [] then .ok none
    else findCharset ((pySplit ';' s).map (fun p => pySplit '=' (pyStrip p)))

/-- Outcome of the external `bytes.decode(charset)` call.
`valueError` covers `UnicodeDecodeError` (a `ValueError`, caught by the
`except ValueError` in `match_content`); `lookupError` covers the
`LookupError` raised for an unknown/invalid encoding name, which is *not*
a `ValueError`. -/
inductive DecodeResult where
  | ok (s : List Char)
  | valueError
  | lookupError
deriving DecidableEq, Repr

/-- The charset actually passed to `bytes.decode`:
`get_charset(content_type_str) or 'UTF-8'` — Python `or` replaces both
`None` and the empty string by the default. -/
def effectiveCharset (copt : Option (List Char)) : List Char :=
  match copt with
  | none => String.toList "UTF-8"
  | some c => if c = [] then String.toList "UTF-8" else c

/-- `match_content(regex, data, content_type_str)` from `pynger.py`
lines 197–203.  `decode` is the oracle for `bytes.decode`; `research` is
the oracle for `re.search(regex, strdata) is not None`.  The call to
`get_charset` sits *outside* the `try`, so its `IndexError` propagates;
inside the `try`, only `ValueError` is caught. -/
def match_content (decode : List Char → List Nat → DecodeResult)
    (research : List Char → List Char → Bool)
    (regex : List Char) (data : List Nat)
    (content_type_str : Option (List Char)) : Except PyError Bool :=
  match get_charset content_type_str with
  | .error e => .error e
  | .ok copt =>
    match decode (effectiveCharset copt) data with
    | .ok strdata => .ok (research regex strdata)
    | .valueError => .ok false
    | .lookupError => .error .lookupError

-- Fidelity checks against `tests/test_kafkapg.py::test_get_charset`.
example :
    get_charset (some (String.toList "test/html; charset=UTF-8")) =
      .ok (some (String.toList "UTF-8")) := by decide
example :
    get_charset (some (String.toList ";charset=ISO-8859-1")) =
      .ok (some (String.toList "ISO-8859-1")) := by decide
example :
    get_charset (some (String.toList "charset=ISO-8859-1")) =
      .ok (some (String.toList "ISO-8859-1")) := by decide
example :
    get_charset (some (String.toList "CHARSET = ISO-8859-1")) =
      .ok (some (String.toList "ISO-8859-1")) := by decide

/-- Timezone-aware timestamp (`datetime.datetime.now(tz=pytz.utc)`); the
offset is in minutes (0 for UTC).  Microseconds are carried because the
`datetime` object has them, although `%Y-%m-%d %H:%M:%S%z` never renders
them. -/
structure DateTime where
  year : Nat
  month : Nat
  day : Nat
  hour : Nat
  minute : Nat
  second : Nat
  microsecond : Nat
  offsetMinutes : Int
deriving DecidableEq, Repr

/-- The `Metric` record of `pynger.py` (the `pool` slot is the transport
handle, not data, and is omitted).  `tcp_exception` holds the `str()`
rendering of the stored exception object. -/
structure Metric where
  tcp_exception : Option String
  tcp_rt : ℚ
  http_rt : ℚ
  initial_response_code : Option Nat
  num_redirects : Nat
  total_rt : ℚ
  final_response_code : Option Nat
  content_found : Option Bool
  timestamp : DateTime
deriving DecidableEq, Repr

/-- `Metric.__init__`: every measured field at its default. -/
def freshMetric (ts : DateTime) : Metric where
  tcp_exception := none
  tcp_rt := 0
  http_rt := 0
  initial_response_code := none
  num_redirects := 0
  total_rt := 0
  final_response_code := none
  content_found := none
  timestamp := ts

/-- Python falsiness of `Union[int, None]`: `not x` is true for `None`
and for `0` (`if not self.initial_response_code:`). -/
def pyFalsyOptNat : Option Nat → Bool
  | none => true
  | some n => n = 0

/-- One HTTP response as observed by a hop: status code, optional
`Location` header, body bytes and optional `content-type` header.  The
`Location` header is optional because `response.headers["Location"]`
(`pynger.py` line 113) raises `KeyError` when a followed `3xx` response
carries none. -/
structure Response where
  status : Nat
  location : Option String
  data : List Nat
  contentType : Option (List Char)

/-- Outcome of one `http_pool.request` call (`pynger.py` lines 71–77,
`retries=False`, `redirect=False`): either a response, or a transport
exception raised by the library (connection reset, TLS failure, …),
which nothing in the probe catches. -/
inductive HopOutcome where
  | response (r : Response)
  | transportError (msg : String)

/-- Result of one invocation of the `time_http` loop, instrumented with a
ghost trace: `tops` records `num_redirects` at the top of every hop (in
order, including a hop that fails the guard), `requests` records
`num_redirects` at every HTTP request actually attempted. -/
structure HttpRun where
  tops : List Nat
  requests : List Nat
  result : Except PyError (Metric × List Nat × Option (List Char))

/-- The metric updates of one hop body (`pynger.py` lines 106–111):
accumulate `total_rt`, overwrite `final_response_code`, and on a hop whose
`initial_response_code` is still falsy (`None` or `0`) set `http_rt` and
`initial_response_code`. -/
def httpHopUpdate (m : Metric) (r : Response) (time_delta : ℚ) : Metric :=
  let m1 : Metric :=
    { m with total_rt := m.total_rt + time_delta, final_response_code := some r.status }
  if pyFalsyOptNat m1.initial_response_code then
    { m1 with http_rt := time_delta, initial_response_code := some r.status }
  else m1

/-- `Metric.time_http` from `pynger.py` lines 99–116.  `resp hop` and
`dur hop` are the oracles for the transport: the outcome of the request
and the measured duration (ms) of hop number `hop`.  The loop: guard
`num_redirects > 20` raises `MaxRedirectError`; otherwise attempt the
request — a transport exception propagates uncaught; on a response,
apply the hop updates (`httpHopUpdate`) and either follow a `3xx`
redirect (reading `headers["Location"]`, which raises `KeyError` when
the header is absent, then increment `num_redirects` and loop) or
return the body and content-type header. -/
def time_http (resp : Nat → HopOutcome) (dur : Nat → ℚ) (follow_redirect : Bool)
    (m : Metric) (hop : Nat) : HttpRun :=
  if _h : m.num_redirects > 20 then
    ⟨[m.num_redirects], [], .error (.maxRedirect "Too many redirects (more than 20)")⟩
  else
    match resp hop with
    | .transportError msg =>
      ⟨[m.num_redirects], [m.num_redirects], .error (.transportError msg)⟩
    | .response r =>
      if follow_redirect = true ∧ 300 ≤ r.status ∧ r.status < 400 then
        match r.location with
        | none =>
          ⟨[m.num_redirects], [m.num_redirects], .error (.keyError "Location")⟩
        | some _ =>
          let sub := time_http resp dur follow_redirect
            { httpHopUpdate m r (dur hop) with
              num_redirects := m.num_redirects + 1 } (hop + 1)
          ⟨m.num_redirects :: sub.tops, m.num_redirects :: sub.requests, sub.result⟩
      else
        ⟨[m.num_redirects], [m.num_redirects],
          .ok (httpHopUpdate m r (dur hop), r.data, r.contentType)⟩
termination_by 21 - m.num_redirects
decreasing_by simp_wf; omega

/-- Outcome of the external `sock.connect` call.  The middle three
constructors are the exception classes `time_connect` catches; `osError`
is any other `OSError` a connect can raise (e.g. `EHOSTUNREACH`,
`ENETUNREACH`), which the code does *not* catch. -/
inductive ConnectOutcome where
  | success (elapsedNs : Nat)
  | resolutionFailure
  | connectionRefused
  | timedOut
  | osError (msg : String)
deriving DecidableEq, Repr

/-- `Metric.time_connect` from `pynger.py` lines 83–97: on success,
`tcp_rt` is the elapsed time in ms; the three caught failures
(`socket.gaierror`, `ConnectionRefusedError`, `TimeoutError` /
`socket.timeout`) store a human-readable description in `tcp_exception`
and the function returns normally; any other `OSError` is not caught and
propagates (`finally: sock.close()` runs either way). -/
def time_connect (m : Metric) (host : String) (port : Nat) (timeoutSec : Nat)
    (o : ConnectOutcome) : Except PyError Metric :=
  match o with
  | .success elapsedNs =>
    .ok { m with tcp_rt := (elapsedNs : ℚ) * (1 / 1000000) }
  | .resolutionFailure =>
    .ok { m with tcp_exception := some ("Could not resolve host name: " ++ host) }
  | .connectionRefused =>
    .ok { m with
      tcp_exception := some ("Host refused connection on port " ++ toString port) }
  | .timedOut =>
    .ok { m with
      tcp_exception := some ("Connection timed out after " ++ toString timeoutSec ++ " seconds") }
  | .osError msg => .error (.osError msg)

/-- Python truthiness of `Union[str, None]` (`if args.search_in_content:`):
skip on `None` and on the empty string. -/
def pyTruthyStr : Option (List Char) → Bool
  | none => false
  | some s => !s.isEmpty

/-- One iteration of the probe loop in `work` (`pynger.py` lines 249–255):
build a fresh `Metric`, run the TCP phase (whose uncaught `OSError`s
propagate); if no TCP exception was recorded, run the HTTP phase and,
when a search pattern is configured, the content match.  Any exception
out of `time_connect`, `time_http` or `match_content` propagates. -/
def runCycle (tcp : ConnectOutcome) (resp : Nat → HopOutcome) (dur : Nat → ℚ)
    (follow_redirect : Bool) (search_in_content : Option (List Char))
    (decode : List Char → List Nat → DecodeResult)
    (research : List Char → List Char → Bool)
    (host : String) (port : Nat) (ts : DateTime) : Except PyError Metric :=
  match time_connect (freshMetric ts) host port 1 tcp with
  | .error e => .error e
  | .ok m =>
    if m.tcp_exception = none then
      match (time_http resp dur follow_redirect m 0).result with
      | .error e => .error e
      | .ok (m2, data, content_type) =>
        if pyTruthyStr search_in_content then
          match match_content decode research (search_in_content.getD []) data content_type with
          | .error e => .error e
          | .ok b => .ok { m2 with content_found := some b }
        else .ok m2
    else .ok m

/-- Guard hop: `num_redirects > 20` raises before any request is issued. -/
theorem time_http_of_guard (resp : Nat → HopOutcome) (dur : Nat → ℚ) (fr : Bool)
    (m : Metric) (hop : Nat) (h : m.num_redirects > 20) :
    time_http resp dur fr m hop =
      ⟨[m.num_redirects], [], .error (.maxRedirect "Too many redirects (more than 20)")⟩ := by
  rw [time_http]
  exact dif_pos h

/-- Failing hop: the request itself raises a transport exception, which
propagates out of the loop. -/
theorem time_http_of_transport (resp : Nat → HopOutcome) (dur : Nat → ℚ) (fr : Bool)
    (m : Metric) (hop : Nat) (h : ¬ m.num_redirects > 20) (msg : String)
    (hresp : resp hop = .transportError msg) :
    time_http resp dur fr m hop =
      ⟨[m.num_redirects], [m.num_redirects], .error (.transportError msg)⟩ := by
  rw [time_http, dif_neg h, hresp]

/-- Answered hop: guard passes and the request returns response `r`;
the hop proceeds with the redirect test on `r`. -/
theorem time_http_response_eq (resp : Nat → HopOutcome) (dur : Nat → ℚ) (fr : Bool)
    (m : Metric) (hop : Nat) (h : ¬ m.num_redirects > 20) (r : Response)
    (hresp : resp hop = .response r) :
    time_http resp dur fr m hop =
      if fr = true ∧ 300 ≤ r.status ∧ r.status < 400 then
        match r.location with
        | none =>
          (⟨[m.num_redirects], [m.num_redirects],
            .error (.keyError "Location")⟩ : HttpRun)
        | some _ =>
          ⟨m.num_redirects :: (time_http resp dur fr
              { httpHopUpdate m r (dur hop) with
                num_redirects := m.num_redirects + 1 } (hop + 1)).tops,
            m.num_redirects :: (time_http resp dur fr
              { httpHopUpdate m r (dur hop) with
                num_redirects := m.num_redirects + 1 } (hop + 1)).requests,
            (time_http resp dur fr
              { httpHopUpdate m r (dur hop) with
                num_redirects := m.num_redirects + 1 } (hop + 1)).result⟩
      else
        ⟨[m.num_redirects], [m.num_redirects],
          .ok (httpHopUpdate m r (dur hop), r.data, r.contentType)⟩ := by
  rw [time_http, dif_neg h, hresp]

/-- Followed redirect without a `Location` header: the
`response.headers["Location"]` access raises `KeyError`. -/
theorem time_http_of_noLocation (resp : Nat → HopOutcome) (dur : Nat → ℚ) (fr : Bool)
    (m : Metric) (hop : Nat) (h : ¬ m.num_redirects > 20) (r : Response)
    (hresp : resp hop = .response r)
    (hr : fr = true ∧ 300 ≤ r.status ∧ r.status < 400)
    (hloc : r.location = none) :
    time_http resp dur fr m hop =
      ⟨[m.num_redirects], [m.num_redirects], .error (.keyError "Location")⟩ := by
  rw [time_http_response_eq resp dur fr m hop h r hresp, if_pos hr, hloc]

/-- Redirect hop: guard passes, status is `3xx`, redirects are followed
and the `Location` header is present.  The updated metric is abstracted
as `m'` so that callers can keep it opaque. -/
theorem time_http_of_redirect (resp : Nat → HopOutcome) (dur : Nat → ℚ) (fr : Bool)
    (m : Metric) (hop : Nat) (h : ¬ m.num_redirects > 20) (r : Response)
    (hresp : resp hop = .response r)
    (hr : fr = true ∧ 300 ≤ r.status ∧ r.status < 400)
    (loc : String) (hloc : r.location = some loc)
    (m' : Metric)
    (hm' : m' = { httpHopUpdate m r (dur hop) with
                  num_redirects := m.num_redirects + 1 }) :
    time_http resp dur fr m hop =
      ⟨m.num_redirects :: (time_http resp dur fr m' (hop + 1)).tops,
        m.num_redirects :: (time_http resp dur fr m' (hop + 1)).requests,
        (time_http resp dur fr m' (hop + 1)).result⟩ := by
  subst hm'
  rw [time_http_response_eq resp dur fr m hop h r hresp, if_pos hr, hloc]

/-- Terminal hop: guard passes, the request answers, and the loop
returns the body. -/
theorem time_http_of_terminal (resp : Nat → HopOutcome) (dur : Nat → ℚ) (fr : Bool)
    (m : Metric) (hop : Nat) (h : ¬ m.num_redirects > 20) (r : Response)
    (hresp : resp hop = .response r)
    (hr : ¬ (fr = true ∧ 300 ≤ r.status ∧ r.status < 400)) :
    time_http resp dur fr m hop =
      ⟨[m.num_redirects], [m.num_redirects],
        .ok (httpHopUpdate m r (dur hop), r.data, r.contentType)⟩ := by
  rw [time_http_response_eq resp dur fr m hop h r hresp, if_neg hr]

/-- `httpHopUpdate` leaves the TCP fields, `num_redirects`,
`content_found` and the timestamp alone, and overwrites
`final_response_code` with the hop status. -/
theorem httpHopUpdate_fields (m : Metric) (r : Response) (d : ℚ) :
    (httpHopUpdate m r d).num_redirects = m.num_redirects ∧
    (httpHopUpdate m r d).tcp_exception = m.tcp_exception ∧
    (httpHopUpdate m r d).tcp_rt = m.tcp_rt ∧
    (httpHopUpdate m r d).timestamp = m.timestamp ∧
    (httpHopUpdate m r d).content_found = m.content_found ∧
    (httpHopUpdate m r d).final_response_code = some r.status := by
  unfold httpHopUpdate
  by_cases hf : pyFalsyOptNat m.initial_response_code = true <;> simp [hf]

/-- After any hop the first-response code is set: a falsy
`initial_response_code` (`None` or `0`) is overwritten with the status,
and a non-falsy one is already `some`. -/
theorem httpHopUpdate_initial_isSome (m : Metric) (r : Response) (d : ℚ) :
    (httpHopUpdate m r d).initial_response_code.isSome = true := by
  unfold httpHopUpdate
  rcases hi : m.initial_response_code with _ | n <;> simp [pyFalsyOptNat, hi]
  by_cases hn : n = 0 <;> simp [hn]

/-- On a hop that starts with a falsy `initial_response_code`, the hop
sets both response codes to the same status. -/
theorem httpHopUpdate_first_hop (m : Metric) (r : Response) (d : ℚ)
    (hf : pyFalsyOptNat m.initial_response_code = true) :
    (httpHopUpdate m r d).final_response_code =
      (httpHopUpdate m r d).initial_response_code := by
  unfold httpHopUpdate
  simp [hf]

/-- Combined loop invariants of `time_http`, by induction on the
termination measure `21 - num_redirects`: every attempted request sees
`num_redirects ≤ 20`; the run fails with `MaxRedirectError` exactly when
some hop top exceeds 20; the hop count is bounded; every error is the
`MaxRedirectError`, a transport exception from a request, or the
`KeyError` of a `Location`-less followed redirect; and a successful run
only adds to the HTTP fields (monotone `num_redirects`, TCP fields and
timestamp untouched, both response codes set, and a run that followed no
redirect has equal response codes). -/
theorem http_loop_invariants (resp : Nat → HopOutcome) (dur : Nat → ℚ) (fr : Bool) :
    ∀ (k : Nat) (m : Metric) (hop : Nat), 21 - m.num_redirects = k →
      (∀ n ∈ (time_http resp dur fr m hop).requests, n ≤ 20) ∧
      ((∃ n ∈ (time_http resp dur fr m hop).tops, 20 < n) ↔
        (time_http resp dur fr m hop).result =
          .error (.maxRedirect "Too many redirects (more than 20)")) ∧
      (time_http resp dur fr m hop).tops.length ≤ 1 + (21 - m.num_redirects) ∧
      (∀ e, (time_http resp dur fr m hop).result = .error e →
        e = .maxRedirect "Too many redirects (more than 20)" ∨
        (∃ msg, e = .transportError msg) ∨ e = .keyError "Location") ∧
      (∀ m2 d ct, (time_http resp dur fr m hop).result = .ok (m2, d, ct) →
        m.num_redirects ≤ m2.num_redirects ∧
        m2.tcp_exception = m.tcp_exception ∧
        m2.tcp_rt = m.tcp_rt ∧
        m2.timestamp = m.timestamp ∧
        m2.initial_response_code.isSome = true ∧
        m2.final_response_code.isSome = true ∧
        (m2.num_redirects = m.num_redirects →
          pyFalsyOptNat m.initial_response_code = true →
          m2.final_response_code = m2.initial_response_code)) := by
  intro k
  induction k with
  | zero =>
    intro m hop hk
    have hgt : m.num_redirects > 20 := by omega
    rw [time_http_of_guard resp dur fr m hop hgt]
    refine ⟨by simp, ⟨fun _ => rfl, fun _ => ⟨m.num_redirects, List.mem_singleton_self _, hgt⟩⟩,
      by simp, ?_, by simp⟩
    intro e he
    exact Or.inl (Except.error.inj he).symm
  | succ k ih =>
    intro m hop hk
    have hle : ¬ m.num_redirects > 20 := by omega
    rcases hresp : resp hop with r | msg
    · by_cases hr : fr = true ∧ 300 ≤ r.status ∧ r.status < 400
      · rcases hloc : r.location with _ | loc
        · rw [time_http_of_noLocation resp dur fr m hop hle r hresp hr hloc]
          refine ⟨?_, ?_, by simp, ?_, ?_⟩
          · intro n hn
            rcases List.mem_singleton.mp hn with rfl
            omega
          · constructor
            · rintro ⟨n, hn, hgtn⟩
              rcases List.mem_singleton.mp hn with rfl
              omega
            · intro he
              exact absurd he (by simp)
          · intro e he
            exact Or.inr (Or.inr (Except.error.inj he).symm)
          · intro m2 d ct hok
            exact absurd hok (by simp)
        · obtain ⟨m', hm'⟩ : ∃ m' : Metric,
              m' = { httpHopUpdate m r (dur hop) with
                     num_redirects := m.num_redirects + 1 } := ⟨_, rfl⟩
          have hnr' : m'.num_redirects = m.num_redirects + 1 := by rw [hm']
          have htcpe : m'.tcp_exception = m.tcp_exception := by
            rw [hm']; exact (httpHopUpdate_fields m r (dur hop)).2.1
          have htcpr : m'.tcp_rt = m.tcp_rt := by
            rw [hm']; exact (httpHopUpdate_fields m r (dur hop)).2.2.1
          have hts : m'.timestamp = m.timestamp := by
            rw [hm']; exact (httpHopUpdate_fields m r (dur hop)).2.2.2.1
          rw [time_http_of_redirect resp dur fr m hop hle r hresp hr loc hloc m' hm']
          obtain ⟨s1, s2, s3, s4, s5⟩ := ih m' (hop + 1) (by omega)
          refine ⟨?_, ?_, ?_, ?_, ?_⟩
          · intro n hn
            rcases List.mem_cons.mp hn with rfl | hn
            · omega
            · exact s1 n hn
          · constructor
            · rintro ⟨n, hn, hgtn⟩
              rcases List.mem_cons.mp hn with rfl | hn
              · omega
              · exact s2.mp ⟨n, hn, hgtn⟩
            · intro he
              obtain ⟨n, hn, hgtn⟩ := s2.mpr he
              exact ⟨n, List.mem_cons_of_mem _ hn, hgtn⟩
          · have hlen : (m.num_redirects ::
                (time_http resp dur fr m' (hop + 1)).tops).length =
                (time_http resp dur fr m' (hop + 1)).tops.length + 1 :=
              List.length_cons _ _
            rw [show (⟨m.num_redirects :: (time_http resp dur fr m' (hop + 1)).tops,
                  m.num_redirects :: (time_http resp dur fr m' (hop + 1)).requests,
                  (time_http resp dur fr m' (hop + 1)).result⟩ : HttpRun).tops =
                m.num_redirects :: (time_http resp dur fr m' (hop + 1)).tops from rfl]
            rw [hlen]
            rw [hnr'] at s3
            omega
          · intro e he
            exact s4 e he
          · intro m2 d ct hok
            obtain ⟨q1, q2, q3, q4, q5, q6, _⟩ := s5 m2 d ct hok
            rw [hnr'] at q1
            refine ⟨by omega, by rw [q2, htcpe], by rw [q3, htcpr],
              by rw [q4, hts], q5, q6, ?_⟩
            intro heq _
            omega
      · rw [time_http_of_terminal resp dur fr m hop hle r hresp hr]
        refine ⟨?_, ?_, by simp, ?_, ?_⟩
        · intro n hn
          rcases List.mem_singleton.mp hn with rfl
          omega
        · constructor
          · rintro ⟨n, hn, hgtn⟩
            rcases List.mem_singleton.mp hn with rfl
            omega
          · intro he
            exact absurd he (by simp)
        · intro e he
          exact absurd he (by simp)
        · intro m2 d ct hok
          have h2 : httpHopUpdate m r (dur hop) = m2 :=
            congrArg Prod.fst (Except.ok.inj hok)
          subst h2
          obtain ⟨u1, u2, u3, u4, _, u6⟩ := httpHopUpdate_fields m r (dur hop)
          refine ⟨by rw [u1], u2, u3, u4,
            httpHopUpdate_initial_isSome m r (dur hop), by rw [u6]; rfl, ?_⟩
          intro _ hf
          exact httpHopUpdate_first_hop m r (dur hop) hf
    · rw [time_http_of_transport resp dur fr m hop hle msg hresp]
      refine ⟨?_, ?_, by simp, ?_, ?_⟩
      · intro n hn
        rcases List.mem_singleton.mp hn with rfl
        omega
      · constructor
        · rintro ⟨n, hn, hgtn⟩
          rcases List.mem_singleton.mp hn with rfl
          omega
        · intro he
          exact absurd he (by simp)
      · intro e he
        exact Or.inr (Or.inl ⟨msg, (Except.error.inj he).symm⟩)
      · intro m2 d ct hok
        exact absurd hok (by simp)

/-- `get_charset` can only raise `IndexError` (from the `c[1]` access). -/
theorem findCharset_error_kind :
    ∀ (cs : List (List (List Char))) (e : PyError),
      findCharset cs = .error e → e = .indexError := by
  intro cs
  induction cs with
  | nil => intro e he; exact absurd he (by simp [findCharset])
  | cons c rest ih =>
    intro e he
    unfold findCharset at he
    by_cases hc : pyStrip (pyLower (c.headD [])) = String.toList "charset"
    · rw [if_pos hc] at he
      match c, he with
      | [], he => exact (Except.error.inj he).symm
      | [_], he => exact (Except.error.inj he).symm
      | _ :: _ :: _, he => exact absurd he (by simp)
    · rw [if_neg hc] at he
      exact ih e he

/-- `get_charset` can only raise `IndexError`. -/
theorem get_charset_error_kind (cts : Option (List Char)) (e : PyError)
    (he : get_charset cts = .error e) : e = .indexError := by
  rcases cts with _ | s
  · exact absurd he (by simp [get_charset])
  · have heq : get_charset (some s) =
        if s = [] then .ok none
        else findCharset ((pySplit ';' s).map (fun p => pySplit '=' (pyStrip p))) := rfl
    rw [heq] at he
    by_cases hs : s = []
    · rw [if_pos hs] at he; exact absurd he (by simp)
    · rw [if_neg hs] at he
      exact findCharset_error_kind _ e he

/-- Errors escaping `match_content` are `IndexError` (from `get_charset`)
or `LookupError` (an unknown charset name in `bytes.decode`). -/
theorem match_content_error_kinds (decode : List Char → List Nat → DecodeResult)
    (research : List Char → List Char → Bool) (regex : List Char)
    (data : List Nat) (cts : Option (List Char)) (e : PyError)
    (he : match_content decode research regex data cts = .error e) :
    e = .indexError ∨ e = .lookupError := by
  unfold match_content at he
  split at he
  · rename_i e0 heq
    exact Or.inl ((Except.error.inj he).symm.trans (get_charset_error_kind cts e0 heq))
  · split at he
    · exact absurd he (by simp)
    · exact absurd he (by simp)
    · exact Or.inr (Except.error.inj he).symm

/-- A fixed timestamp used for concrete witness runs. -/
def tsZero : DateTime := ⟨2026, 1, 1, 0, 0, 0, 0, 0⟩

/-- A plain `200` response with no content-type header. -/
def respOkResponse : Response := ⟨200, none, [104, 105], none⟩

/-- A transport oracle that always answers with `respOkResponse`. -/
def respOk : Nat → HopOutcome := fun _ => .response respOkResponse

/-- A `200` response carrying the malformed content-type header
`"text/html; charset"` (a `charset` item with no `=`). -/
def respBadCtResponse : Response :=
  ⟨200, none, [], some (String.toList "text/html; charset")⟩

/-- A transport oracle answering with `respBadCtResponse`. -/
def respBadCt : Nat → HopOutcome := fun _ => .response respBadCtResponse

/-- A transport oracle answering a `301` redirect that carries no
`Location` header. -/
def respNoLoc : Nat → HopOutcome := fun _ => .response ⟨301, none, [], none⟩

/-- A clock oracle: every hop takes 1 ms. -/
def durOne : Nat → ℚ := fun _ => 1

/-- A decode oracle for which every decode succeeds. -/
def decodeAllOk : List Char → List Nat → DecodeResult := fun _ _ => .ok []

/-- A decode oracle modelling CPython `bytes.decode`: the well-known name
`UTF-8` decodes; any other name is an unknown encoding, for which CPython
raises `LookupError` — which is not a `ValueError`. -/
def decodeStrict : List Char → List Nat → DecodeResult := fun charset _ =>
  if charset = String.toList "UTF-8" then .ok [] else .lookupError

/-- A decode oracle whose decode always fails with a `ValueError`
(`UnicodeDecodeError`), as for body bytes malformed for the charset. -/
def decodeValueError : List Char → List Nat → DecodeResult := fun _ _ => .valueError

/-- A search oracle (`re.search`) that never matches. -/
def researchFalse : List Char → List Char → Bool := fun _ _ => false

/-- C10: `get_charset` (and hence `match_content`) is not total: on the
header `"text/html; charset"` the `;`-item `charset` has no `=`, so the
`c[1]` access raises `IndexError`; `match_content` calls `get_charset`
outside its `try` block, so the error escapes to the caller. -/
theorem c10_get_charset_index_error :
    get_charset (some (String.toList "text/html; charset")) = .error .indexError ∧
    ∀ (decode : List Char → List Nat → DecodeResult)
      (research : List Char → List Char → Bool)
      (regex : List Char) (data : List Nat),
      match_content decode research regex data
        (some (String.toList "text/html; charset")) = .error .indexError := by
  constructor
  · decide
  · intro decode research regex data
    unfold match_content
    rw [show get_charset (some (String.toList "text/html; charset")) =
      .error .indexError from by decide]

/-- C6 counterexample: with the well-formed header
`"text/html; charset=banana"`, the extracted charset `banana` is an
unknown encoding; `bytes.decode` raises `LookupError`, which
`except ValueError` does not catch — the decode failure propagates as an
error instead of returning false. -/
theorem c6_counterexample :
    match_content decodeStrict researchFalse (String.toList "x") []
      (some (String.toList "text/html; charset=banana")) = .error .lookupError ∧
    ∀ b : Bool, (Except.error PyError.lookupError : Except PyError Bool) ≠ .ok b := by
  constructor
  · decide
  · intro b h; exact absurd h (by simp)

/-- C6 (amended): `match_content` returns false whenever decoding the
body bytes with the extracted charset (or the UTF-8 default) fails with a
`ValueError` (e.g. `UnicodeDecodeError`); such a failure is never
propagated.  (A `LookupError` from an unknown charset name, not being a
`ValueError`, escapes — see the counterexample.) -/
theorem c6_decode_failure_false (decode : List Char → List Nat → DecodeResult)
    (research : List Char → List Char → Bool) (regex : List Char)
    (data : List Nat) (cts : Option (List Char)) (copt : Option (List Char))
    (hgc : get_charset cts = .ok copt)
    (hdec : decode (effectiveCharset copt) data = .valueError) :
    match_content decode research regex data cts = .ok false := by
  unfold match_content
  rw [hgc]
  show (match decode (effectiveCharset copt) data with
    | DecodeResult.ok strdata => (Except.ok (research regex strdata) : Except PyError Bool)
    | DecodeResult.valueError => Except.ok false
    | DecodeResult.lookupError => Except.error PyError.lookupError) = Except.ok false
  rw [hdec]

/-- C6 witness: a concrete `ValueError` decode failure yields `ok false`. -/
theorem c6_decode_failure_false_witness :
    match_content decodeValueError researchFalse (String.toList "x") [104]
      (some (String.toList "text/html; charset=UTF-8")) = .ok false :=
  c6_decode_failure_false decodeValueError researchFalse (String.toList "x") [104]
    (some (String.toList "text/html; charset=UTF-8"))
    (some (String.toList "UTF-8")) (by decide) rfl

/-- Projections of a fresh metric. -/
theorem freshMetric_num_redirects (ts : DateTime) :
    (freshMetric ts).num_redirects = 0 := rfl

/-- C1 counterexample: the HTTP phase does not always end in a terminal
response or the `MaxRedirectError` — following a `301` that carries no
`Location` header, the very first hop raises the `KeyError` of
`response.headers["Location"]`, a third kind of outcome. -/
theorem c1_counterexample :
    (time_http respNoLoc durOne true (freshMetric tsZero) 0).result =
      .error (.keyError "Location") ∧
    PyError.keyError "Location" ≠
      .maxRedirect "Too many redirects (more than 20)" := by
  constructor
  · rw [time_http_of_noLocation respNoLoc durOne true (freshMetric tsZero) 0
      (by rw [freshMetric_num_redirects]; omega) ⟨301, none, [], none⟩ rfl
      (by decide) rfl]
  · intro h
    exact absurd h (by simp)

/-- C1 (amended): for every invocation of the HTTP phase from a fresh
metric, no HTTP request is ever attempted while `num_redirects > 20`;
the loop fails with the "too many redirects" `MaxRedirectError` exactly
when `num_redirects` exceeds 20 at the top of some hop; the hop count is
bounded by 22, and the loop is a total function, so it always terminates
— with a terminal response, with the `MaxRedirectError`, or with an
exception propagated from a hop (a transport error raised by the
request, or the `KeyError` of a followed `3xx` without a `Location`
header). -/
theorem c1_redirect_guard (resp : Nat → HopOutcome) (dur : Nat → ℚ)
    (fr : Bool) (ts : DateTime) :
    (∀ n ∈ (time_http resp dur fr (freshMetric ts) 0).requests, n ≤ 20) ∧
    ((∃ n ∈ (time_http resp dur fr (freshMetric ts) 0).tops, 20 < n) ↔
      (time_http resp dur fr (freshMetric ts) 0).result =
        .error (.maxRedirect "Too many redirects (more than 20)")) ∧
    (time_http resp dur fr (freshMetric ts) 0).tops.length ≤ 22 ∧
    (∀ e, (time_http resp dur fr (freshMetric ts) 0).result = .error e →
      e = .maxRedirect "Too many redirects (more than 20)" ∨
      (∃ msg, e = .transportError msg) ∨ e = .keyError "Location") := by
  obtain ⟨s1, s2, s3, s4, _⟩ :=
    http_loop_invariants resp dur fr 21 (freshMetric ts) 0 rfl
  rw [freshMetric_num_redirects] at s3
  exact ⟨s1, s2, s3, s4⟩

/-- C1 witness: a concrete terminal run attempts its one request with
`num_redirects = 0 ≤ 20`, stays within the hop bound, and the
`KeyError` outcome of the counterexample run is in the proven error
set. -/
theorem c1_redirect_guard_witness :
    0 ≤ 20 ∧
    (time_http respOk durOne false (freshMetric tsZero) 0).tops.length ≤ 22 ∧
    (PyError.keyError "Location" = .maxRedirect "Too many redirects (more than 20)" ∨
      (∃ msg, PyError.keyError "Location" = .transportError msg) ∨
      PyError.keyError "Location" = .keyError "Location") := by
  have h := c1_redirect_guard respOk durOne false tsZero
  have hnl := c1_redirect_guard respNoLoc durOne true tsZero
  refine ⟨h.1 0 ?_, h.2.2.1, ?_⟩
  · rw [time_http_of_terminal respOk durOne false (freshMetric tsZero) 0
      (by rw [freshMetric_num_redirects]; omega) respOkResponse rfl (by simp)]
    exact List.mem_singleton_self _
  · refine hnl.2.2.2 (.keyError "Location") ?_
    rw [time_http_of_noLocation respNoLoc durOne true (freshMetric tsZero) 0
      (by rw [freshMetric_num_redirects]; omega) ⟨301, none, [], none⟩ rfl
      (by decide) rfl]

/-- C8: for a metric produced by the HTTP phase (from a fresh metric),
`final_response_code = initial_response_code` whenever
`num_redirects = 0`; and with redirect-following disabled every
successful run has `num_redirects = 0` and equal response codes. -/
theorem c8_no_redirect_codes_equal (resp : Nat → HopOutcome) (dur : Nat → ℚ)
    (fr : Bool) (ts : DateTime) :
    (∀ m2 d ct, (time_http resp dur fr (freshMetric ts) 0).result = .ok (m2, d, ct) →
      m2.num_redirects = 0 →
      m2.final_response_code = m2.initial_response_code) ∧
    (∀ m2 d ct, (time_http resp dur false (freshMetric ts) 0).result = .ok (m2, d, ct) →
      m2.num_redirects = 0 ∧
      m2.final_response_code = m2.initial_response_code) := by
  constructor
  · intro m2 d ct hok h0
    obtain ⟨_, _, _, _, s5⟩ :=
      http_loop_invariants resp dur fr 21 (freshMetric ts) 0 rfl
    obtain ⟨_, _, _, _, _, _, q7⟩ := s5 m2 d ct hok
    exact q7 (by rw [h0, freshMetric_num_redirects]) rfl
  · intro m2 d ct hok
    rcases hresp : resp 0 with r | msg
    · rw [time_http_of_terminal resp dur false (freshMetric ts) 0
        (by rw [freshMetric_num_redirects]; omega) r hresp (by simp)] at hok
      have h2 : httpHopUpdate (freshMetric ts) r (dur 0) = m2 :=
        congrArg Prod.fst (Except.ok.inj hok)
      subst h2
      exact ⟨(httpHopUpdate_fields (freshMetric ts) r (dur 0)).1,
        httpHopUpdate_first_hop (freshMetric ts) r (dur 0) rfl⟩
    · rw [time_http_of_transport resp dur false (freshMetric ts) 0
        (by rw [freshMetric_num_redirects]; omega) msg hresp] at hok
      exact absurd hok (by simp)

/-- C8 witness: the concrete no-redirect run has `num_redirects = 0` and
equal response codes. -/
theorem c8_no_redirect_codes_equal_witness :
    (httpHopUpdate (freshMetric tsZero) respOkResponse (durOne 0)).num_redirects = 0 ∧
    (httpHopUpdate (freshMetric tsZero) respOkResponse (durOne 0)).final_response_code =
      (httpHopUpdate (freshMetric tsZero) respOkResponse (durOne 0)).initial_response_code := by
  refine (c8_no_redirect_codes_equal respOk durOne false tsZero).2
    (httpHopUpdate (freshMetric tsZero) respOkResponse (durOne 0))
    respOkResponse.data respOkResponse.contentType ?_
  rw [time_http_of_terminal respOk durOne false (freshMetric tsZero) 0
    (by rw [freshMetric_num_redirects]; omega) respOkResponse rfl (by simp)]

/-- Unfolding `runCycle` on a successful TCP connect: the fresh metric
gets `tcp_rt` and the HTTP phase runs. -/
theorem runCycle_success_eq (e : Nat) (resp : Nat → HopOutcome) (dur : Nat → ℚ)
    (fr : Bool) (pat : Option (List Char))
    (decode : List Char → List Nat → DecodeResult)
    (research : List Char → List Char → Bool)
    (host : String) (port : Nat) (ts : DateTime) :
    runCycle (.success e) resp dur fr pat decode research host port ts =
      match (time_http resp dur fr
          { freshMetric ts with tcp_rt := (e : ℚ) * (1 / 1000000) } 0).result with
      | .error err => .error err
      | .ok (m2, data, content_type) =>
        if pyTruthyStr pat = true then
          match match_content decode research (pat.getD []) data content_type with
          | .error err => .error err
          | .ok b => .ok { m2 with content_found := some b }
        else .ok m2 := rfl

/-- Unfolding `runCycle` on a name-resolution failure: only the TCP
exception is recorded and the HTTP phase never runs. -/
theorem runCycle_resolutionFailure_eq (resp : Nat → HopOutcome) (dur : Nat → ℚ)
    (fr : Bool) (pat : Option (List Char))
    (decode : List Char → List Nat → DecodeResult)
    (research : List Char → List Char → Bool)
    (host : String) (port : Nat) (ts : DateTime) :
    runCycle .resolutionFailure resp dur fr pat decode research host port ts =
      .ok { freshMetric ts with
            tcp_exception := some ("Could not resolve host name: " ++ host) } := rfl

/-- Unfolding `runCycle` on a refused connection. -/
theorem runCycle_connectionRefused_eq (resp : Nat → HopOutcome) (dur : Nat → ℚ)
    (fr : Bool) (pat : Option (List Char))
    (decode : List Char → List Nat → DecodeResult)
    (research : List Char → List Char → Bool)
    (host : String) (port : Nat) (ts : DateTime) :
    runCycle .connectionRefused resp dur fr pat decode research host port ts =
      .ok { freshMetric ts with
            tcp_exception := some ("Host refused connection on port " ++ toString port) } := rfl

/-- Unfolding `runCycle` on a connect timeout. -/
theorem runCycle_timedOut_eq (resp : Nat → HopOutcome) (dur : Nat → ℚ)
    (fr : Bool) (pat : Option (List Char))
    (decode : List Char → List Nat → DecodeResult)
    (research : List Char → List Char → Bool)
    (host : String) (port : Nat) (ts : DateTime) :
    runCycle .timedOut resp dur fr pat decode research host port ts =
      .ok { freshMetric ts with
            tcp_exception := some
              ("Connection timed out after " ++ toString (1 : Nat) ++ " seconds") } := rfl

/-- Unfolding `runCycle` on an `OSError` that `time_connect` does not
catch: the exception propagates out of the cycle. -/
theorem runCycle_osError_eq (msg : String) (resp : Nat → HopOutcome) (dur : Nat → ℚ)
    (fr : Bool) (pat : Option (List Char))
    (decode : List Char → List Nat → DecodeResult)
    (research : List Char → List Char → Bool)
    (host : String) (port : Nat) (ts : DateTime) :
    runCycle (.osError msg) resp dur fr pat decode research host port ts =
      .error (.osError msg) := rfl

/-- C3: in every probe cycle exactly one of {`tcp_exception` present,
HTTP fields populated} holds: each caught TCP failure kind returns the
fresh metric with only `tcp_exception` set (`tcp_rt` stays 0, the HTTP
phase is never entered, every HTTP field keeps its default), while on
TCP success (with a clock that advanced, `0 < e`) the produced metric
has `tcp_exception` absent, `tcp_rt > 0`, and both response codes set. -/
theorem c3_tcp_http_exclusive (resp : Nat → HopOutcome) (dur : Nat → ℚ)
    (fr : Bool) (pat : Option (List Char))
    (decode : List Char → List Nat → DecodeResult)
    (research : List Char → List Char → Bool)
    (host : String) (port : Nat) (ts : DateTime) (e : Nat) (he : 0 < e) :
    (runCycle .resolutionFailure resp dur fr pat decode research host port ts =
      .ok { freshMetric ts with
            tcp_exception := some ("Could not resolve host name: " ++ host) }) ∧
    (runCycle .connectionRefused resp dur fr pat decode research host port ts =
      .ok { freshMetric ts with
            tcp_exception := some ("Host refused connection on port " ++ toString port) }) ∧
    (runCycle .timedOut resp dur fr pat decode research host port ts =
      .ok { freshMetric ts with
            tcp_exception := some
              ("Connection timed out after " ++ toString (1 : Nat) ++ " seconds") }) ∧
    (∀ m2, runCycle (.success e) resp dur fr pat decode research host port ts = .ok m2 →
      m2.tcp_exception = none ∧ 0 < m2.tcp_rt ∧
      m2.initial_response_code.isSome = true ∧
      m2.final_response_code.isSome = true) := by
  refine ⟨runCycle_resolutionFailure_eq resp dur fr pat decode research host port ts,
    runCycle_connectionRefused_eq resp dur fr pat decode research host port ts,
    runCycle_timedOut_eq resp dur fr pat decode research host port ts, ?_⟩
  intro m2 hok
  rw [runCycle_success_eq] at hok
  obtain ⟨_, _, _, _, s5⟩ := http_loop_invariants resp dur fr 21
    { freshMetric ts with tcp_rt := (e : ℚ) * (1 / 1000000) } 0 rfl
  have he2 : (0 : ℚ) < e := by exact_mod_cast he
  have hpos : 0 < (e : ℚ) * (1 / 1000000) :=
    mul_pos he2 (by norm_num)
  rcases hres : (time_http resp dur fr
      { freshMetric ts with tcp_rt := (e : ℚ) * (1 / 1000000) } 0).result
    with err | ⟨mh, data, ct⟩
  · rw [hres] at hok; exact absurd hok (by simp)
  · rw [hres] at hok
    replace hok : (if pyTruthyStr pat = true then
        match match_content decode research (pat.getD []) data ct with
        | .error err => (Except.error err : Except PyError Metric)
        | .ok b => .ok { mh with content_found := some b }
      else .ok mh) = .ok m2 := hok
    obtain ⟨_, q2, q3, _, q5, q6, _⟩ := s5 mh data ct hres
    by_cases hp : pyTruthyStr pat = true
    · rw [if_pos hp] at hok
      rcases hmc : match_content decode research (pat.getD []) data ct with err2 | b
      · rw [hmc] at hok; exact absurd hok (by simp)
      · rw [hmc] at hok
        have hm2 : { mh with content_found := some b } = m2 := Except.ok.inj hok
        subst hm2
        refine ⟨q2, ?_, q5, q6⟩
        show 0 < mh.tcp_rt
        rw [q3]; exact hpos
    · rw [if_neg hp] at hok
      have hm2 : mh = m2 := Except.ok.inj hok
      subst hm2
      refine ⟨q2, ?_, q5, q6⟩
      rw [q3]; exact hpos

/-- C3 witness: a concrete failing cycle and a concrete succeeding cycle. -/
theorem c3_tcp_http_exclusive_witness :
    (0 : Nat) < 5 ∧
    (runCycle .resolutionFailure respOk durOne false none decodeAllOk researchFalse
        "h" 80 tsZero =
      .ok { freshMetric tsZero with
            tcp_exception := some ("Could not resolve host name: " ++ "h") }) ∧
    ((httpHopUpdate { freshMetric tsZero with
        tcp_rt := ((5 : Nat) : ℚ) * (1 / 1000000) } respOkResponse (durOne 0)).tcp_exception = none ∧
      0 < (httpHopUpdate { freshMetric tsZero with
        tcp_rt := ((5 : Nat) : ℚ) * (1 / 1000000) } respOkResponse (durOne 0)).tcp_rt ∧
      (httpHopUpdate { freshMetric tsZero with
        tcp_rt := ((5 : Nat) : ℚ) * (1 / 1000000) } respOkResponse (durOne 0)).initial_response_code.isSome = true ∧
      (httpHopUpdate { freshMetric tsZero with
        tcp_rt := ((5 : Nat) : ℚ) * (1 / 1000000) } respOkResponse (durOne 0)).final_response_code.isSome = true) := by
  have h := c3_tcp_http_exclusive respOk durOne false none decodeAllOk researchFalse
    "h" 80 tsZero 5 (by decide)
  refine ⟨by decide, h.1, h.2.2.2 _ ?_⟩
  rw [runCycle_success_eq, time_http_of_terminal respOk durOne false
    { freshMetric tsZero with tcp_rt := ((5 : Nat) : ℚ) * (1 / 1000000) } 0
    (by decide) respOkResponse rfl (by simp)]
  rfl

/-- Concrete cycle in which an `IndexError` escapes: TCP succeeds, a
search pattern is configured, and the response carries the malformed
content-type header `"text/html; charset"`. -/
theorem runCycle_badct_eval :
    runCycle (.success 5) respBadCt durOne false (some (String.toList "x"))
      decodeAllOk researchFalse "h" 80 tsZero = .error .indexError := by
  rw [runCycle_success_eq, time_http_of_terminal respBadCt durOne false
    { freshMetric tsZero with tcp_rt := ((5 : Nat) : ℚ) * (1 / 1000000) } 0
    (by decide) respBadCtResponse rfl (by decide)]
  rfl

/-- C4 counterexample, refuting both halves of the claim: (a) a TCP
connect failing with an `OSError` outside the three caught classes
(e.g. `EHOSTUNREACH`, "No route to host") escapes `time_connect` — it
does not return normally; (b) an exception other than the
redirect-count overflow escapes a probe cycle — the `IndexError` raised
by `get_charset` on the malformed header `"text/html; charset"`
propagates through `match_content` and out of the cycle. -/
theorem c4_counterexample :
    runCycle (.osError "[Errno 113] No route to host") respOk durOne false none
      decodeAllOk researchFalse "h" 80 tsZero =
      .error (.osError "[Errno 113] No route to host") ∧
    runCycle (.success 5) respBadCt durOne false (some (String.toList "x"))
      decodeAllOk researchFalse "h" 80 tsZero = .error .indexError ∧
    (∀ msg, PyError.indexError ≠ .maxRedirect msg) ∧
    (∀ msg msg2, PyError.osError msg ≠ .maxRedirect msg2) := by
  refine ⟨rfl, runCycle_badct_eval, ?_, ?_⟩
  · intro msg h
    exact absurd h (by simp)
  · intro msg msg2 h
    exact absurd h (by simp)

/-- C4 (amended): `time_connect` catches and classifies exactly three
TCP failure kinds — name resolution failure, connection refused,
timeout — storing the human-readable description in `tcp_exception` and
returning normally for those; an `OSError` outside these classes
(e.g. `EHOSTUNREACH`) is not caught and escapes `time_connect`.
Consequently the redirect-count overflow is not the only exception that
can escape a probe cycle: the full escape set is the redirect overflow,
an uncaught `OSError` from the TCP phase, a transport error or the
`Location` `KeyError` from the HTTP phase, and the `IndexError` /
`LookupError` of content matching. -/
theorem c4_tcp_never_raises (m : Metric) (host : String) (port tSec : Nat) :
    (time_connect m host port tSec .resolutionFailure =
        .ok { m with tcp_exception := some ("Could not resolve host name: " ++ host) } ∧
      time_connect m host port tSec .connectionRefused =
        .ok { m with tcp_exception := some ("Host refused connection on port " ++ toString port) } ∧
      time_connect m host port tSec .timedOut =
        .ok { m with
              tcp_exception := some ("Connection timed out after " ++ toString tSec ++ " seconds") } ∧
      (∀ e, time_connect m host port tSec (.success e) =
        .ok { m with tcp_rt := (e : ℚ) * (1 / 1000000) }) ∧
      (∀ msg, time_connect m host port tSec (.osError msg) =
        .error (.osError msg))) ∧
    (∀ (tcp : ConnectOutcome) (resp : Nat → HopOutcome) (dur : Nat → ℚ)
      (fr : Bool) (pat : Option (List Char))
      (decode : List Char → List Nat → DecodeResult)
      (research : List Char → List Char → Bool) (ts : DateTime) (err : PyError),
      runCycle tcp resp dur fr pat decode research host port ts = .error err →
        err = .maxRedirect "Too many redirects (more than 20)" ∨
        err = .indexError ∨ err = .lookupError ∨
        err = .keyError "Location" ∨
        (∃ msg, err = .transportError msg) ∨
        (∃ msg, err = .osError msg)) := by
  refine ⟨⟨rfl, rfl, rfl, fun _ => rfl, fun _ => rfl⟩, ?_⟩
  intro tcp resp dur fr pat decode research ts err herr
  cases tcp with
  | success e0 =>
    rw [runCycle_success_eq] at herr
    obtain ⟨_, _, _, s4, _⟩ := http_loop_invariants resp dur fr 21
      { freshMetric ts with tcp_rt := (e0 : ℚ) * (1 / 1000000) } 0 rfl
    rcases hres : (time_http resp dur fr
        { freshMetric ts with tcp_rt := (e0 : ℚ) * (1 / 1000000) } 0).result
      with err0 | ⟨mh, data, ct⟩
    · rw [hres] at herr
      replace herr : (Except.error err0 : Except PyError Metric) = .error err := herr
      have heq : err = err0 := (Except.error.inj herr).symm
      rcases s4 err0 hres with h1 | ⟨msg, h1⟩ | h1
      · exact Or.inl (heq.trans h1)
      · exact Or.inr (Or.inr (Or.inr (Or.inr (Or.inl ⟨msg, heq.trans h1⟩))))
      · exact Or.inr (Or.inr (Or.inr (Or.inl (heq.trans h1))))
    · rw [hres] at herr
      replace herr : (if pyTruthyStr pat = true then
          match match_content decode research (pat.getD []) data ct with
          | .error e2 => (Except.error e2 : Except PyError Metric)
          | .ok b => .ok { mh with content_found := some b }
        else .ok mh) = .error err := herr
      by_cases hp : pyTruthyStr pat = true
      · rw [if_pos hp] at herr
        rcases hmc : match_content decode research (pat.getD []) data ct with e2 | b
        · rw [hmc] at herr
          replace herr : (Except.error e2 : Except PyError Metric) = .error err := herr
          have heq : err = e2 := (Except.error.inj herr).symm
          rcases match_content_error_kinds decode research (pat.getD []) data ct e2 hmc
            with h1 | h1
          · exact Or.inr (Or.inl (heq.trans h1))
          · exact Or.inr (Or.inr (Or.inl (heq.trans h1)))
        · rw [hmc] at herr
          exact absurd herr (by simp)
      · rw [if_neg hp] at herr
        exact absurd herr (by simp)
  | resolutionFailure =>
    rw [runCycle_resolutionFailure_eq] at herr
    exact absurd herr (by simp)
  | connectionRefused =>
    rw [runCycle_connectionRefused_eq] at herr
    exact absurd herr (by simp)
  | timedOut =>
    rw [runCycle_timedOut_eq] at herr
    exact absurd herr (by simp)
  | osError msg =>
    rw [runCycle_osError_eq] at herr
    exact Or.inr (Or.inr (Or.inr (Or.inr (Or.inr
      ⟨msg, (Except.error.inj herr).symm⟩))))

/-- C4 witness: the classification at concrete calls (a caught failure
returning normally, an uncaught `OSError` escaping), and the escape set
applied to the concrete escaping `IndexError` cycle. -/
theorem c4_tcp_never_raises_witness :
    time_connect (freshMetric tsZero) "h" 80 1 .resolutionFailure =
      .ok { freshMetric tsZero with
            tcp_exception := some ("Could not resolve host name: " ++ "h") } ∧
    time_connect (freshMetric tsZero) "h" 80 1 (.osError "[Errno 113] No route to host") =
      .error (.osError "[Errno 113] No route to host") ∧
    (PyError.indexError = .maxRedirect "Too many redirects (more than 20)" ∨
      PyError.indexError = .indexError ∨ PyError.indexError = .lookupError ∨
      PyError.indexError = .keyError "Location" ∨
      (∃ msg, PyError.indexError = .transportError msg) ∨
      (∃ msg, PyError.indexError = .osError msg)) := by
  have h := c4_tcp_never_raises (freshMetric tsZero) "h" 80 1
  exact ⟨h.1.1, h.1.2.2.2.2 "[Errno 113] No route to host",
    h.2 (.success 5) respBadCt durOne false (some (String.toList "x"))
      decodeAllOk researchFalse tsZero .indexError runCycle_badct_eval⟩

/-- One row of the destination table `metric` (`kafkapg.py` lines 50–62):
`created_at` is the primary key; the numeric columns hold the JSON
numbers from the payload. -/
structure Row where
  created_at : String
  tcp_exception : Option String
  tcp_rt : ℚ
  http_rt : ℚ
  initial_rc : Option ℚ
  num_redirects : ℚ
  total_rt : ℚ
  final_rc : Option ℚ
  content_found : Option Bool
deriving DecidableEq, Repr

/-- The prepared statement `EXECUTE insert_metric (...)`:
`INSERT INTO metric ... ON CONFLICT (created_at) DO NOTHING` — if a row
with the same `created_at` exists the insert is a silent no-op, else the
row is appended. -/
def insert_metric (table : List Row) (r : Row) : List Row :=
  if table.any (fun x => x.created_at == r.created_at) then table
  else table ++ [r]

/-- Number of rows in the table with the given `created_at` key. -/
def countKey (table : List Row) (k : String) : Nat :=
  (table.filter (fun x => x.created_at == k)).length

/-- The primary-key invariant: at most one row per `created_at`. -/
def atMostOnePerKey (table : List Row) : Prop :=
  ∀ k, countKey table k ≤ 1

/-- The `ON CONFLICT` test of `insert_metric`, as a proposition. -/
theorem any_key_iff (s : List Row) (r : Row) :
    (s.any fun x => x.created_at == r.created_at) = true ↔
      ∃ x ∈ s, x.created_at = r.created_at := by
  rw [List.any_eq_true]
  constructor
  · rintro ⟨x, hx, hb⟩; exact ⟨x, hx, by simpa using hb⟩
  · rintro ⟨x, hx, hb⟩; exact ⟨x, hx, by simpa using hb⟩

/-- Appending one row adds exactly its own key to the counts. -/
theorem countKey_append (s : List Row) (x : Row) (k : String) :
    countKey (s ++ [x]) k =
      countKey s k + (if x.created_at = k then 1 else 0) := by
  by_cases h : x.created_at = k <;>
    simp [countKey, List.filter_append, h]

/-- A key is present in the table iff its count is positive. -/
theorem countKey_pos_iff (s : List Row) (k : String) :
    0 < countKey s k ↔ ∃ x ∈ s, x.created_at = k := by
  constructor
  · intro h
    obtain ⟨x, hx⟩ := List.exists_mem_of_length_pos h
    have hm := List.mem_filter.mp hx
    exact ⟨x, hm.1, by simpa using hm.2⟩
  · rintro ⟨x, hxs, hxk⟩
    have hm : x ∈ List.filter (fun y => y.created_at == k) s :=
      List.mem_filter.mpr ⟨hxs, by simpa using hxk⟩
    exact List.length_pos.mpr (List.ne_nil_of_mem hm)

/-- A conflicting insert is a no-op. -/
theorem insert_metric_conflict (s : List Row) (r : Row)
    (h : ∃ x ∈ s, x.created_at = r.created_at) : insert_metric s r = s := by
  unfold insert_metric
  rw [if_pos ((any_key_iff s r).mpr h)]

/-- A non-conflicting insert appends the row. -/
theorem insert_metric_new (s : List Row) (r : Row)
    (h : ¬ ∃ x ∈ s, x.created_at = r.created_at) :
    insert_metric s r = s ++ [r] := by
  unfold insert_metric
  rw [if_neg (fun hb => h ((any_key_iff s r).mp hb))]

/-- Every insert preserves the at-most-one-row-per-key invariant. -/
theorem insert_metric_preserves (s : List Row) (x : Row)
    (hinv : atMostOnePerKey s) : atMostOnePerKey (insert_metric s x) := by
  by_cases h : ∃ y ∈ s, y.created_at = x.created_at
  · rw [insert_metric_conflict s x h]; exact hinv
  · rw [insert_metric_new s x h]
    intro k
    rw [countKey_append]
    by_cases hk : x.created_at = k
    · rw [if_pos hk]
      have h0 : countKey s k = 0 := by
        by_contra hpos
        obtain ⟨y, hy, hyk⟩ :=
          (countKey_pos_iff s k).mp (Nat.pos_of_ne_zero hpos)
        exact h ⟨y, hy, by rw [hyk, hk]⟩
      omega
    · rw [if_neg hk]
      have := hinv k
      omega

/-- After inserting a row into an invariant-respecting table, its key is
present exactly once. -/
theorem insert_metric_countKey (s : List Row) (x : Row)
    (hinv : atMostOnePerKey s) :
    countKey (insert_metric s x) x.created_at = 1 := by
  by_cases h : ∃ y ∈ s, y.created_at = x.created_at
  · rw [insert_metric_conflict s x h]
    have hpos : 0 < countKey s x.created_at := (countKey_pos_iff _ _).mpr h
    have := hinv x.created_at
    omega
  · rw [insert_metric_new s x h, countKey_append, if_pos rfl]
    have h0 : countKey s x.created_at = 0 := by
      by_contra hpos
      exact h ((countKey_pos_iff _ _).mp (Nat.pos_of_ne_zero hpos))
    omega

/-- C2: the insert is keyed by `created_at` with conflict-as-no-op, so
ingesting two rows carrying the same timestamp into a table respecting
the primary-key invariant leaves exactly one row for that timestamp, the
duplicate is a silent no-op (no error channel in the type), and every
insert preserves at-most-one-row-per-`created_at`. -/
theorem c2_duplicate_timestamp_one_row (t : List Row) (r r2 : Row)
    (hinv : atMostOnePerKey t) (hk : r2.created_at = r.created_at) :
    countKey (insert_metric (insert_metric t r) r2) r.created_at = 1 ∧
    insert_metric (insert_metric t r) r2 = insert_metric t r ∧
    atMostOnePerKey (insert_metric (insert_metric t r) r2) ∧
    (∀ (s : List Row) (x : Row),
      atMostOnePerKey s → atMostOnePerKey (insert_metric s x)) := by
  have h1 : countKey (insert_metric t r) r.created_at = 1 :=
    insert_metric_countKey t r hinv
  have hinv1 := insert_metric_preserves t r hinv
  have hmem : ∃ y ∈ insert_metric t r, y.created_at = r2.created_at := by
    rw [hk]
    exact (countKey_pos_iff _ _).mp (by omega)
  have hnoop : insert_metric (insert_metric t r) r2 = insert_metric t r :=
    insert_metric_conflict _ r2 hmem
  refine ⟨?_, hnoop, ?_, fun s x hs => insert_metric_preserves s x hs⟩
  · rw [hnoop]; exact h1
  · rw [hnoop]; exact hinv1

/-- A sample row for concrete runs. -/
def row0 : Row :=
  ⟨"2026-01-01 00:00:00+0000", none, 0, 0, none, 0, 0, none, none⟩

/-- A second delivery of the same timestamp with different measurements. -/
def row0dup : Row :=
  ⟨"2026-01-01 00:00:00+0000", some "x", 1, 1, some 200, 0, 1, some 200, none⟩

/-- C2 witness: the duplicate delivery on the empty store leaves exactly
one row. -/
theorem c2_duplicate_timestamp_one_row_witness :
    countKey (insert_metric (insert_metric [] row0) row0dup) row0.created_at = 1 ∧
    insert_metric (insert_metric [] row0) row0dup = insert_metric [] row0 := by
  have h := c2_duplicate_timestamp_one_row [] row0 row0dup
    (fun k => by simp [countKey]) rfl
  exact ⟨h.1, h.2.1⟩

/-- One bus message as the consumer sees it: the bus-assigned offset and
the raw payload bytes (`message.value`). -/
structure KMessage where
  offset : Nat
  value : List Nat
deriving DecidableEq, Repr

/-- Observable store events of the ingestion loop. -/
inductive WEvent where
  | insert (r : Row)
  | commit
deriving DecidableEq, Repr

/-- The consumption loop of `start_postgresql_writer` (`kafkapg.py`
lines 84–102) over a finite message sequence.  `loads` is the oracle for
`json.loads(message.value.decode("utf-8"))` projected onto the nine row
fields; `none` models a raised decode error (or a missing key), which
escapes the `for` loop.  The result is the emitted event trace and a
flag telling whether the loop finished cleanly.  In both exits the
`connect` context manager's `finally:` issues one final `conn.commit()`
before closing, so the trace always ends with a commit.  A `None`
message is skipped (`if message is not None:`); otherwise the payload is
decoded, the idempotent insert executes, and a commit is issued iff
`message.offset & 0xF == 0xF`. -/
def writer_run (loads : List Nat → Option Row) :
    List (Option KMessage) → List WEvent × Bool
  | [] => ([.commit], true)
  | none :: rest => writer_run loads rest
  | some msg :: rest =>
    match loads msg.value with
    | none => ([.commit], false)
    | some r =>
      let res := writer_run loads rest
      (.insert r :: (if msg.offset &&& 0xF = 0xF then [.commit] else []) ++ res.1,
        res.2)

/-- Replaying a trace against a table: inserts go through the
conflict-as-no-op `insert_metric`; commits do not change the visible
table contents. -/
def apply_events (t : List Row) : List WEvent → List Row
  | [] => t
  | .insert r :: rest => apply_events (insert_metric t r) rest
  | .commit :: rest => apply_events t rest

/-- The commit cadence in the words of the claim: for each non-null
message, one insert of its decoded row followed by a commit exactly when
the message's bus-assigned offset satisfies `offset & 0xF == 0xF`
(messages whose payload the oracle cannot decode contribute nothing —
the claim's cadence is about decodable sequences).  This definition
follows the specification text and is compared with `writer_run`. -/
def cadence_events (loads : List Nat → Option Row)
    (msgs : List (Option KMessage)) : List WEvent :=
  msgs.flatMap fun om =>
    match om with
    | none => []
    | some m =>
      match loads m.value with
      | none => []
      | some r =>
        WEvent.insert r :: (if m.offset &&& 0xF = 0xF then [.commit] else [])

/-- C5: over every sequence of consumed messages whose payloads all
decode, the ingestion loop's trace is exactly the claim's cadence — a
commit after a message exactly when its offset has low nibble `0xF` —
followed by one additional commit on clean shutdown, and the shutdown is
clean. -/
theorem c5_commit_cadence (loads : List Nat → Option Row)
    (msgs : List (Option KMessage))
    (hdec : ∀ m : KMessage, some m ∈ msgs → (loads m.value).isSome = true) :
    writer_run loads msgs = (cadence_events loads msgs ++ [.commit], true) := by
  induction msgs with
  | nil => simp [writer_run, cadence_events]
  | cons om rest ih =>
    have hrest : ∀ m : KMessage, some m ∈ rest → (loads m.value).isSome = true :=
      fun m hm => hdec m (List.mem_cons_of_mem _ hm)
    rcases om with _ | m
    · rw [show writer_run loads (none :: rest) = writer_run loads rest from rfl,
        ih hrest]
      simp [cadence_events]
    · have hm : (loads m.value).isSome = true :=
        hdec m (List.mem_cons_self _ _)
      obtain ⟨r, hr⟩ := Option.isSome_iff_exists.mp hm
      have hstep : writer_run loads (some m :: rest) =
          (.insert r :: (if m.offset &&& 0xF = 0xF then [.commit] else []) ++
            (writer_run loads rest).1, (writer_run loads rest).2) := by
        rw [writer_run, hr]
      rw [hstep, ih hrest]
      simp [cadence_events, hr, List.append_assoc]

/-- A decode oracle for C5 and C9 concrete runs: the empty payload fails
to decode (CPython `json.loads` raises `JSONDecodeError` on an empty
string); any non-empty payload decodes to the sample row. -/
def loadsEmptyFails : List Nat → Option Row :=
  fun v => if v.isEmpty then none else some row0

/-- C5 witness: a concrete run with offsets 15 (commit) and 3 (no
commit) plus a null message matches the cadence and ends cleanly. -/
theorem c5_commit_cadence_witness :
    writer_run loadsEmptyFails [some ⟨15, [1]⟩, none, some ⟨3, [2]⟩] =
      (cadence_events loadsEmptyFails [some ⟨15, [1]⟩, none, some ⟨3, [2]⟩] ++
        [.commit], true) := by
  refine c5_commit_cadence loadsEmptyFails _ ?_
  intro m hm
  simp only [List.mem_cons, List.not_mem_nil, or_false] at hm
  rcases hm with hm | hm | hm
  · cases Option.some.inj hm; rfl
  · exact absurd hm (by simp)
  · cases Option.some.inj hm; rfl

/-- C9 counterexample: an *empty* (zero-byte payload) message is not
skipped — the code only checks `message is not None` — so its payload
decode is attempted, `json.loads` raises on the empty string, and the
pipeline halts instead of continuing unchanged. -/
theorem c9_counterexample :
    (writer_run loadsEmptyFails [some ⟨0, []⟩]).2 = false ∧
    (writer_run loadsEmptyFails []).2 = true ∧
    writer_run loadsEmptyFails [some ⟨0, []⟩] ≠ writer_run loadsEmptyFails [] := by
  refine ⟨rfl, rfl, ?_⟩
  intro h
  have := congrArg Prod.snd h
  simp [writer_run, loadsEmptyFails] at this

/-- C9 (amended): every *null* incoming message is skipped defensively —
no payload decode, no insert, no commit, no error: the run over
`none :: rest` is literally the run over `rest`, so the pipeline state
and the store are unchanged.  An empty message, by contrast, is not
skipped: its payload decode is attempted, fails, and halts the pipeline
(the final `finally:` commit still runs). -/
theorem c9_null_skipped (loads : List Nat → Option Row)
    (rest : List (Option KMessage)) (off : Nat) (hload : loads [] = none) :
    writer_run loads (none :: rest) = writer_run loads rest ∧
    writer_run loads (some ⟨off, []⟩ :: rest) = ([.commit], false) := by
  constructor
  · rfl
  · unfold writer_run
    rw [show (⟨off, []⟩ : KMessage).value = [] from rfl, hload]

/-- C9 witness: the null message ahead of an empty queue is a no-op; the
empty message halts. -/
theorem c9_null_skipped_witness :
    writer_run loadsEmptyFails [none] = writer_run loadsEmptyFails [] ∧
    writer_run loadsEmptyFails [some ⟨0, []⟩] = ([.commit], false) :=
  c9_null_skipped loadsEmptyFails [] 0 rfl

/-- JSON values as the standard-library codec's AST.  `json.dumps` /
`json.loads` are the external codec; they round-trip this AST faithfully
(Python floats round-trip through `repr`), so serialization is modelled
at the AST level. -/
inductive JValue where
  | jnull
  | jbool (b : Bool)
  | jnum (q : ℚ)
  | jstr (s : String)
deriving DecidableEq, Repr

/-- The two kinds of non-JSON-native objects that reach the
`default=` hook of `json.dumps`: the `datetime` timestamp and the stored
TCP exception object (whose `str()` rendering the model carries). -/
inductive PyObj where
  | pydatetime (d : DateTime)
  | pyexception (s : String)
deriving DecidableEq, Repr

/-- Zero-padded two-digit decimal field. -/
def pad2 (n : Nat) : String :=
  if n < 10 then "0" ++ toString n else toString n

/-- Zero-padded four-digit decimal field (`%Y`). -/
def pad4 (n : Nat) : String :=
  if n < 10 then "000" ++ toString n
  else if n < 100 then "00" ++ toString n
  else if n < 1000 then "0" ++ toString n
  else toString n

/-- `%z` for a fixed-offset timezone: sign, then hours and minutes with
no separator (`+0000` for UTC). -/
def formatOffset (mins : Int) : String :=
  if mins < 0 then "-" ++ pad2 ((-mins).toNat / 60) ++ pad2 ((-mins).toNat % 60)
  else "+" ++ pad2 (mins.toNat / 60) ++ pad2 (mins.toNat % 60)

/-- `datetime.datetime.strftime(obj, "%Y-%m-%d %H:%M:%S%z")` — the exact
wire pattern; note it renders no sub-second field. -/
def strftime_pattern (d : DateTime) : String :=
  pad4 d.year ++ "-" ++ pad2 d.month ++ "-" ++ pad2 d.day ++ " " ++
    pad2 d.hour ++ ":" ++ pad2 d.minute ++ ":" ++ pad2 d.second ++
    formatOffset d.offsetMinutes

/-- `format_unsupported_types` from `pynger.py` lines 206–210: a
`datetime` is rendered with the exact pattern; any other object falls
back to `str(obj)`. -/
def format_unsupported_types : PyObj → String
  | .pydatetime d => strftime_pattern d
  | .pyexception s => s

/-- `json.dumps(dict(metric), default=format_unsupported_types)` at the
AST level.  `dict(metric)` enumerates the nine slots of `Metric.keys()`
(every slot except `pool`); native values map to JSON directly, the
timestamp and the exception object go through
`format_unsupported_types`. -/
def metric_json (m : Metric) : List (String × JValue) :=
  [("tcp_exception", match m.tcp_exception with
      | none => .jnull
      | some s => .jstr (format_unsupported_types (.pyexception s))),
    ("tcp_rt", .jnum m.tcp_rt),
    ("http_rt", .jnum m.http_rt),
    ("initial_response_code", match m.initial_response_code with
      | none => .jnull
      | some n => .jnum n),
    ("num_redirects", .jnum (m.num_redirects : ℚ)),
    ("total_rt", .jnum m.total_rt),
    ("final_response_code", match m.final_response_code with
      | none => .jnull
      | some n => .jnum n),
    ("content_found", match m.content_found with
      | none => .jnull
      | some b => .jbool b),
    ("timestamp", .jstr (format_unsupported_types (.pydatetime m.timestamp)))]

/-- Python dict access `obj[k]` on the decoded JSON object. -/
def jlookup (obj : List (String × JValue)) (k : String) : Option JValue :=
  match obj with
  | [] => none
  | (k2, v) :: rest => if k2 = k then some v else jlookup rest k

/-- The consumer's reads (`kafkapg.py` lines 90–98): after `json.loads`
returns the payload object, the writer accesses the nine keys in this
order; a missing key would be a `KeyError` (`none`). -/
def read_metric_fields (obj : List (String × JValue)) :
    Option (JValue × JValue × JValue × JValue × JValue × JValue ×
      JValue × JValue × JValue) := do
  let ts ← jlookup obj "timestamp"
  let te ← jlookup obj "tcp_exception"
  let trt ← jlookup obj "tcp_rt"
  let hrt ← jlookup obj "http_rt"
  let irc ← jlookup obj "initial_response_code"
  let nr ← jlookup obj "num_redirects"
  let tot ← jlookup obj "total_rt"
  let frc ← jlookup obj "final_response_code"
  let cf ← jlookup obj "content_found"
  return (ts, te, trt, hrt, irc, nr, tot, frc, cf)

-- The pattern renders UTC timestamps exactly as the spec's example shape.
example : strftime_pattern ⟨2026, 1, 1, 0, 0, 0, 0, 0⟩ =
    "2026-01-01 00:00:00+0000" := by decide
example : strftime_pattern ⟨2025, 12, 31, 23, 59, 6, 123456, 0⟩ =
    "2025-12-31 23:59:06+0000" := by decide

/-- C7: serializing any `Metric` to the wire JSON and reading it back
recovers all nine persisted fields exactly — the timestamp as the string
rendered with the exact `%Y-%m-%d %H:%M:%S%z` pattern, the exception in
its string form, and every native value unchanged. -/
theorem c7_serialization_roundtrip (m : Metric) :
    read_metric_fields (metric_json m) = some
      (.jstr (strftime_pattern m.timestamp),
        (match m.tcp_exception with
          | none => .jnull
          | some s => .jstr s),
        .jnum m.tcp_rt, .jnum m.http_rt,
        (match m.initial_response_code with
          | none => .jnull
          | some n => .jnum n),
        .jnum (m.num_redirects : ℚ), .jnum m.total_rt,
        (match m.final_response_code with
          | none => .jnull
          | some n => .jnum n),
        (match m.content_found with
          | none => .jnull
          | some b => .jbool b)) := by
  rcases m with ⟨te, trt, hrt, irc, nr, tot, frc, cf, ts⟩
  rcases te with _ | s <;> rcases irc with _ | n1 <;> rcases frc with _ | n2 <;>
    rcases cf with _ | b <;> rfl
